import Mathlib

/-!
A shallow embedding of `usb_watchdog.py` (leifliddy/usb-watchdog) and proofs
about it.  Python strings are modelled as `List Char`, byte sequences as
`List Nat` (each element < 256), exceptions as an explicit error type
threaded through `Except`, and the USB device's behaviour as an explicit
parameter (what each read returns, whether the device is found, how each
send/receive exchange ends).  Observable behaviour (wire operations, sleeps,
log calls, state-variable assignments, process exit) is collected in traces.
-/

deriving instance DecidableEq for Except

namespace UsbWatchdog

/-- The Python exception kinds that can arise in this program.
`usbError` covers `usb.USBError` (including timeouts) and carries the
`errno` attribute consulted at the supervisor's `except usb.USBError`
branch.  `systemExit` is `SystemExit` as raised by `sys.exit`. -/
inductive PyError where
  | usbError (errno : Option Nat)
  | valueError
  | typeError
  | assertionError
  | keyboardInterrupt
  | systemExit (code : Nat)
  deriving DecidableEq

/-- Which exceptions the clause `except usb.USBError` catches. -/
def isUSBError : PyError → Bool
  | .usbError _ => true
  | _ => false

/-- A Python runtime value, as far as the drain routine's logging line
`'Drained ' + len(tmp) + ' bytes from USB endpoint'` needs: strings and
integers. -/
inductive PyVal where
  | str (s : String)
  | int (n : Int)
  deriving DecidableEq

/-- Python's binary `+`: string + string concatenates, int + int adds, and
a mixed application such as `'Drained ' + len(tmp)` raises `TypeError`. -/
def pyAdd : PyVal → PyVal → Except PyError PyVal
  | .str a, .str b => .ok (.str (a ++ b))
  | .int a, .int b => .ok (.int (a + b))
  | _, _ => .error .typeError

/-- An operation actually performed on the USB wire: an OUT-endpoint write
of a byte sequence, or an IN-endpoint read requesting up to `size` bytes
with a timeout in milliseconds. -/
inductive WireOp where
  | write (data : List Nat)
  | read (size : Nat) (timeoutMs : Nat)
  deriving DecidableEq

/-- What a single `ep_in.read` attempt yields, as behaviour of the device:
either data (a byte list) or a raised exception (a timeout is a
`usb.USBError`). -/
inductive ReadResult where
  | ok (data : List Nat)
  | err (e : PyError)

/-- A USB endpoint descriptor; only `bEndpointAddress` is consulted by the
program. -/
structure Endpoint where
  bEndpointAddress : Nat
  deriving DecidableEq

/-- `usb.util.ENDPOINT_DIR_MASK`. -/
def ENDPOINT_DIR_MASK : Nat := 0x80

/-- `usb.util.ENDPOINT_OUT`. -/
def ENDPOINT_OUT : Nat := 0x00

/-- `usb.util.ENDPOINT_IN`. -/
def ENDPOINT_IN : Nat := 0x80

/-- `usb.util.endpoint_direction(address)`: the direction bit of an endpoint
address. -/
def endpoint_direction (address : Nat) : Nat := address &&& ENDPOINT_DIR_MASK

/-- `usb.util.find_descriptor(intf, custom_match=...)`: first endpoint of the
interface satisfying the matcher, or `None`. -/
def find_descriptor (intf : List Endpoint) (custom_match : Endpoint → Bool) :
    Option Endpoint :=
  intf.find? custom_match

/-- The log calls the program makes (`logging.debug` calls are not traced;
they carry no decision content).  `waiting` is the info message
`Waiting for watchdog module to be connected...`. -/
inductive LogMsg where
  | waiting
  | pinging
  | restarting
  | mismatchWarn
  | permissionError
  | usbCommError
  deriving DecidableEq

/-- `hexDigit n` is the lowercase hexadecimal digit character for `n < 16`,
as produced by Python's `%x` formatting and `bytes.hex()`. -/
def hexDigit (n : Nat) : Char :=
  if n < 10 then Char.ofNat (48 + n) else Char.ofNat (87 + n)

/-- The two characters `'%02x' % b` produces for a byte `b < 256` (also one
byte's worth of `bytes.hex()`). -/
def byteHexChars (b : Nat) : List Char :=
  [hexDigit (b / 16), hexDigit (b % 16)]

/-- `''.join('%02x' % i for i in data)`, and equally `data.hex()`, with
Python strings modelled as character lists. -/
def bytesHex : List Nat → List Char
  | [] => []
  | b :: t => byteHexChars b ++ bytesHex t

/-- `SendAndReceive(ep_out, ep_in, dout)` (source lines 55-63) given that the
device answers the read with `data_read`:
```
ep_out.write(dout)
data_read = ep_in.read(ep_in.bEndpointAddress, 16)
din = ''.join('%02x' %i for i in data_read)
return din
```
pyusb's `Endpoint.read(size_or_buffer, timeout)` takes the requested size
first and the timeout second, so the read requests up to
`ep_in.bEndpointAddress` bytes with a 16 ms timeout.  Returns the wire
operations performed and `din`. -/
def SendAndReceive (ep_in : Endpoint) (dout : List Nat) (data_read : List Nat) :
    List WireOp × List Char :=
  ([.write dout, .read ep_in.bEndpointAddress 16], bytesHex data_read)

/-- `SendAndCompare(ep_out, ep_in, dout)` (source lines 67-76) given the
device's reply bytes: logs a warning when `dout.hex()` and `din` differ and
returns `dout_hex == din_hex`.  Result: wire ops, warnings logged, boolean. -/
def SendAndCompare (ep_in : Endpoint) (dout : List Nat) (data_read : List Nat) :
    List WireOp × List LogMsg × Bool :=
  let r := SendAndReceive ep_in dout data_read
  let dout_hex := bytesHex dout
  (r.1, (if dout_hex ≠ r.2 then [LogMsg.mismatchWarn] else []),
    decide (dout_hex = r.2))

/-- The argument of the drain loop's debug call,
`'Drained ' + len(tmp) + ' bytes from USB endpoint'` (source line 88),
evaluated with Python's `+`. -/
def drainLogArg (tmpLen : Nat) : Except PyError PyVal := do
  let a ← pyAdd (.str "Drained ") (.int (tmpLen : Int))
  pyAdd a (.str " bytes from USB endpoint")

/-- The drain loop body iterated: `for i in range(0,256): tmp =
ep_in.read(1024,10); logging.debug('Drained ' + len(tmp) + ' bytes...')`
with the whole loop wrapped in `try ... except usb.USBError: pass`.
A read raising `usb.USBError` is caught and ends the drain normally; any
other exception (in particular the `TypeError` from the log-argument
concatenation, or an interrupt raised by `read`) propagates.  The first
component collects the reads performed. -/
def drainAux (ep_in_read : Nat → ReadResult) :
    Nat → Nat → List WireOp × Except PyError Unit
  | 0, _ => ([], .ok ())
  | fuel + 1, i =>
    match ep_in_read i with
    | .err e =>
      ([.read 1024 10], if isUSBError e then .ok () else .error e)
    | .ok data =>
      match drainLogArg data.length with
      | .error e => ([.read 1024 10], .error e)
      | .ok _ =>
        let rest := drainAux ep_in_read fuel (i + 1)
        (.read 1024 10 :: rest.1, rest.2)

/-- `DrainUSB(ep_in)` (source lines 80-91): at most 256 reads of up to 1024
bytes with a 10 ms timeout each. -/
def DrainUSB (ep_in_read : Nat → ReadResult) : List WireOp × Except PyError Unit :=
  drainAux ep_in_read 256 0

/-- How one `SendAndCompare` exchange ends, as device/environment behaviour:
the write and read both complete and the device replies `data`, or the
write raises, or the write completes and the read raises. -/
inductive Exchange where
  | reply (data : List Nat)
  | writeFault (e : PyError)
  | readFault (e : PyError)

/-- The device's behaviour over one acquisition attempt: whether
`usb.core.find` locates it, the endpoint list of interface `(0,0)` of its
active configuration, what successive drain reads return, and how the
session's successive exchanges end. -/
structure DeviceBehaviour where
  found : Bool
  intf : List Endpoint
  drainReads : Nat → ReadResult
  exchanges : List Exchange

/-- `usbinit(...)` (source lines 95-158) for a device behaving as `b`:
```
dev = usb.core.find(idVendor=..., idProduct=...)
if dev is None: raise usb.USBError('Device not found')
... detach_kernel_driver / set_configuration: no observable wire effect ...
intf = cfg[(0,0)]
ep_out = usb.util.find_descriptor(intf, custom_match=lambda e:
           usb.util.endpoint_direction(e.bEndpointAddress) == usb.util.ENDPOINT_OUT)
ep_in  = usb.util.find_descriptor(intf, custom_match=lambda e:
           usb.util.endpoint_direction(e.bEndpointAddress) == usb.util.ENDPOINT_IN)
assert ep_out is not None
assert ep_in is not None
DrainUSB(ep_in)
return dev, ep_out, ep_in
```
A failed `assert` raises `AssertionError`. -/
def usbinit (b : DeviceBehaviour) :
    List WireOp × Except PyError (Endpoint × Endpoint) :=
  if b.found = false then
    ([], .error (.usbError none))
  else
    let ep_out := find_descriptor b.intf
      (fun e => endpoint_direction e.bEndpointAddress == ENDPOINT_OUT)
    let ep_in := find_descriptor b.intf
      (fun e => endpoint_direction e.bEndpointAddress == ENDPOINT_IN)
    match ep_out with
    | none => ([], .error .assertionError)
    | some _eo =>
      match ep_in with
      | none => ([], .error .assertionError)
      | some ei =>
        let d := DrainUSB b.drainReads
        match d.2 with
        | .error e => (d.1, .error e)
        | .ok _ =>
          match ep_out with
          | some eo => (d.1, .ok (eo, ei))
          | none => (d.1, .error .assertionError)

/-- The parsed command-line configuration (`args` in `main`). -/
structure Args where
  interval : Int
  quiet : Bool
  restart : Bool
  debug : Bool
  usbvendor : String
  usbproduct : String

/-- `ping = bytes([0x1e, 0x00])` (source lines 194-195). -/
def ping : List Nat := [0x1e, 0x00]

/-- `restart = bytes([0xff, 0x55])` (source lines 196-197). -/
def restart : List Nat := [0xff, 0x55]

/-- Outcome of the inner `while True` loop of `main` for a finite exchange
script: either an exception propagated out of it (the only way the loop
ends), or the script ran out with the loop still going. -/
inductive SessOutcome where
  | fault (e : PyError)
  | outOfScript
  deriving DecidableEq

/-- Trace of one run of the inner loop. -/
structure SessTrace where
  wire : List WireOp
  sleeps : List Int
  logs : List LogMsg
  outcome : SessOutcome

/-- The inner `while True` loop of `main` (source lines 260-273):
```
while True:
    if args.restart:
        logging.info('Restarting system...')
        SendAndCompare(ep_out, ep_in, restart)
        sys.exit()                      # SystemExit, exit status 0
    if not args.quiet:
        date = get_date()
        logging.info(date + ': Pinging!')
    SendAndCompare(ep_out, ep_in, ping)
    time.sleep(args.interval)
```
run against the finite script of exchange behaviours. -/
def sessionLoop (args : Args) (ep_in : Endpoint) : List Exchange → SessTrace
  | [] => ⟨[], [], [], .outOfScript⟩
  | ex :: rest =>
    if args.restart then
      match ex with
      | .writeFault e => ⟨[], [], [.restarting], .fault e⟩
      | .readFault e => ⟨[.write restart], [], [.restarting], .fault e⟩
      | .reply r =>
        let c := SendAndCompare ep_in restart r
        ⟨c.1, [], [.restarting] ++ c.2.1, .fault (.systemExit 0)⟩
    else
      let plog : List LogMsg := if args.quiet then [] else [.pinging]
      match ex with
      | .writeFault e => ⟨[], [], plog, .fault e⟩
      | .readFault e => ⟨[.write ping], [], plog, .fault e⟩
      | .reply r =>
        let c := SendAndCompare ep_in ping r
        let t := sessionLoop args ep_in rest
        ⟨c.1 ++ t.wire, args.interval :: t.sleeps, plog ++ c.2.1 ++ t.logs,
          t.outcome⟩

/-- The connection-state pseudo-enum `State = enum('STARTUP',
'DISCONNECTED', 'CONNECTED')` (source line 247). -/
inductive ConnState where
  | STARTUP
  | DISCONNECTED
  | CONNECTED
  deriving DecidableEq

/-- Which exceptions the supervisor loop's handlers (`except ValueError`,
`except usb.USBError`, source lines 274-284) catch. -/
def supervisorCatches : PyError → Bool
  | .valueError => true
  | .usbError _ => true
  | _ => false

/-- `errno.EACCES`. -/
def errnoEACCES : Nat := 13

/-- The log calls of the supervisor's exception handlers: the
`except usb.USBError` branch logs a permission error when
`evalue.errno == errno.EACCES` and an error when `laststatus ==
State.CONNECTED`; the `except ValueError` branch only logs at debug level. -/
def usbErrorLogs (e : PyError) (laststatus : ConnState) : List LogMsg :=
  match e with
  | .usbError errno =>
    (if errno = some errnoEACCES then [LogMsg.permissionError] else []) ++
      (if laststatus = .CONNECTED then [LogMsg.usbCommError] else [])
  | _ => []

/-- The conditional info message after cleanup (source lines 289-290):
`if laststatus == State.STARTUP: logging.info('Waiting for watchdog module
to be connected...')`. -/
def waitLog (laststatus : ConnState) : List LogMsg :=
  if laststatus = .STARTUP then [LogMsg.waiting] else []

/-- Outcome of the outer `while True` loop for a finite behaviour script:
still running (script exhausted), or an exception neither handler caught
propagated out of `main`. -/
inductive LoopOutcome where
  | running
  | uncaught (e : PyError)
  deriving DecidableEq

/-- What one iteration of the outer loop contributes: wire operations,
sleeps, log calls, successive assignments to `laststatus`, and whether the
loop was left (`halt = some o`) or continues with `laststatus =
DISCONNECTED` (`halt = none`; every completed iteration ends with
`laststatus=State.DISCONNECTED` and `time.sleep(2)`). -/
structure IterOut where
  wire : List WireOp
  sleeps : List Int
  logs : List LogMsg
  states : List ConnState
  halt : Option LoopOutcome

/-- The tail of an outer-loop iteration once the inner loop ended with
outcome `st.outcome`, `laststatus` having been set to `CONNECTED`: a caught
exception leads to the handler logs, `usbcleanup()`, the waiting-message
check (never firing, since `laststatus` is `CONNECTED`),
`laststatus=State.DISCONNECTED` and `time.sleep(2)`; an uncaught exception
aborts the loop. -/
def handleSessionEnd (initOps : List WireOp) (st : SessTrace) : IterOut :=
  match st.outcome with
  | .outOfScript => ⟨initOps ++ st.wire, st.sleeps, st.logs, [.CONNECTED], some .running⟩
  | .fault e =>
    if supervisorCatches e then
      ⟨initOps ++ st.wire, st.sleeps ++ [2],
        st.logs ++ usbErrorLogs e .CONNECTED ++ waitLog .CONNECTED,
        [.CONNECTED, .DISCONNECTED], none⟩
    else
      ⟨initOps ++ st.wire, st.sleeps, st.logs, [.CONNECTED], some (.uncaught e)⟩

/-- One iteration of the outer `while True` loop (source lines 250-292),
given the result `acq` of `dev, ep_out, ep_in = usbinit(...)` and the
session script.  On success `laststatus=State.CONNECTED` and the inner loop
runs; a caught exception falls through to `usbcleanup()`, the waiting
check against the current `laststatus`, `laststatus=State.DISCONNECTED` and
`time.sleep(2)`; an uncaught exception aborts the loop at once (skipping
cleanup). -/
def superviseIter (args : Args) (laststatus : ConnState)
    (acq : List WireOp × Except PyError (Endpoint × Endpoint))
    (exchs : List Exchange) : IterOut :=
  match acq with
  | (initOps, .error e) =>
    if supervisorCatches e then
      ⟨initOps, [2], usbErrorLogs e laststatus ++ waitLog laststatus,
        [.DISCONNECTED], none⟩
    else
      ⟨initOps, [], [], [], some (.uncaught e)⟩
  | (initOps, .ok (_ep_out, ep_in)) =>
    handleSessionEnd initOps (sessionLoop args ep_in exchs)

/-- Cumulative trace of the outer loop / whole process. -/
structure ProcTrace where
  printed : List String
  wire : List WireOp
  sleeps : List Int
  logs : List LogMsg
  states : List ConnState
  attempts : Nat
  outcome : LoopOutcome

/-- The outer `while True` loop of `main`, iterated over a finite script of
device behaviours (one per acquisition attempt).  `attempts` counts the
iterations the loop actually performed. -/
def superviseAux (args : Args) (laststatus : ConnState) :
    List DeviceBehaviour → ProcTrace
  | [] => ⟨[], [], [], [], [], 0, .running⟩
  | b :: rest =>
    let it := superviseIter args laststatus (usbinit b) b.exchanges
    match it.halt with
    | some o => ⟨[], it.wire, it.sleeps, it.logs, it.states, 1, o⟩
    | none =>
      let t := superviseAux args .DISCONNECTED rest
      ⟨[], it.wire ++ t.wire, it.sleeps ++ t.sleeps, it.logs ++ t.logs,
        it.states ++ t.states, t.attempts + 1, t.outcome⟩

/-- `main()` (source lines 186-292): validate the interval
(`if not 1 <= args.interval <= 299: print(...); print('exiting...');
sys.exit(1)` — `SystemExit(1)` before any USB activity), then run the
supervisor loop with `laststatus=State.STARTUP`. -/
def main (args : Args) (behs : List DeviceBehaviour) : ProcTrace :=
  if 1 ≤ args.interval ∧ args.interval ≤ 299 then
    superviseAux args .STARTUP behs
  else
    ⟨["The interval specified " ++ toString args.interval ++
        " is not between 1 and 299", "exiting..."],
      [], [], [], [], 0, .uncaught (.systemExit 1)⟩

/-- Observable actions of the top-level interrupt handler and `FatalError`. -/
inductive Action where
  | printStderrFatal (msg : String)
  | consoleSuppressed
  | logErrorMsg (msg : String)
  | dispose_resources
  | devReset
  deriving DecidableEq

/-- `usbcleanup()` (source lines 162-180): best-effort
`usb.util.dispose_resources(dev)`, a short pause, then `dev.reset()`; each
step's failures are swallowed except `KeyboardInterrupt`. -/
def usbcleanup : List Action := [.dispose_resources, .devReset]

/-- Which exceptions `usbcleanup`'s handlers swallow: everything except
`KeyboardInterrupt` (`except KeyboardInterrupt: raise` / `except: pass`). -/
def cleanupSwallows : PyError → Bool
  | .keyboardInterrupt => false
  | _ => true

/-- `FatalError(message)` (source lines 15-35): print the fatal message to
stderr, silence the console stream handler, log the error, run
`usbcleanup()`, then `sys.exit(1)`.  Returns the actions performed and the
exit status. -/
def FatalError (message : Option String) : List Action × Nat :=
  match message with
  | some msg =>
    ([.printStderrFatal ("FATAL ERROR: " ++ msg), .consoleSuppressed,
        .logErrorMsg msg] ++ usbcleanup, 1)
  | none => ([.logErrorMsg "No descriptive text provided"] ++ usbcleanup, 1)

/-- Final observable outcome of the whole process. -/
structure ProcEnd where
  printed : List String
  actions : List Action
  wire : List WireOp
  sleeps : List Int
  logs : List LogMsg
  states : List ConnState
  attempts : Nat
  exitStatus : Option Nat
  crashedWith : Option PyError

/-- The `if __name__ == '__main__'` block (source lines 309-318) around
`main()`: `KeyboardInterrupt` is met with `print('\n')` and
`FatalError('User pressed CTRL+C, aborting...')` (exit status 1); a
`SystemExit` reaches the interpreter and exits with its code; any other
uncaught exception makes the interpreter print a traceback and exit with
status 1 (`crashedWith` records it). -/
def processRun (args : Args) (behs : List DeviceBehaviour) : ProcEnd :=
  let t := main args behs
  match t.outcome with
  | .running =>
    ⟨t.printed, [], t.wire, t.sleeps, t.logs, t.states, t.attempts, none, none⟩
  | .uncaught (.systemExit c) =>
    ⟨t.printed, [], t.wire, t.sleeps, t.logs, t.states, t.attempts, some c, none⟩
  | .uncaught .keyboardInterrupt =>
    let fe := FatalError (some "User pressed CTRL+C, aborting...")
    ⟨t.printed ++ ["\n"], fe.1, t.wire, t.sleeps, t.logs, t.states, t.attempts,
      some fe.2, none⟩
  | .uncaught e =>
    ⟨t.printed, [], t.wire, t.sleeps, t.logs, t.states, t.attempts, some 1, some e⟩

/-- The allowed state changes named by the specification. -/
def allowedStep : ConnState → ConnState → Bool
  | .STARTUP, .CONNECTED => true
  | .STARTUP, .DISCONNECTED => true
  | .CONNECTED, .DISCONNECTED => true
  | .DISCONNECTED, .CONNECTED => true
  | _, _ => false

/-- Every adjacent pair of a trace either repeats a value or is an allowed
state change. -/
def goodTrace : List ConnState → Bool
  | [] => true
  | [_] => true
  | a :: b :: t => (decide (a = b) || allowedStep a b) && goodTrace (b :: t)

/-- The writes of a wire trace (the packets that were sent). -/
def writesOf (ops : List WireOp) : List (List Nat) :=
  ops.filterMap fun op => match op with
    | .write d => some d
    | .read _ _ => none

/-- A behaviour under which `usb.core.find` returns `None` (device never
found). -/
def notFoundDevice : DeviceBehaviour :=
  { found := false, intf := [], drainReads := fun _ => .err (.usbError none),
    exchanges := [] }

/-- A concrete OUT endpoint (address 0x01). -/
def epOutC : Endpoint := ⟨0x01⟩

/-- A concrete IN endpoint (address 0x81). -/
def epInC : Endpoint := ⟨0x81⟩

/-- A well-formed device whose input queue is empty (first drain read times
out) and whose session proceeds as scripted. -/
def okDevice (exchs : List Exchange) : DeviceBehaviour :=
  { found := true, intf := [epOutC, epInC],
    drainReads := fun _ => .err (.usbError none), exchanges := exchs }

/-- Default configuration: `--interval 10`, no flags. -/
def argsDefault : Args :=
  { interval := 10, quiet := false, restart := false, debug := false,
    usbvendor := "0x5131", usbproduct := "0x2007" }

/-! ## Hexadecimal encoding is injective on byte lists -/

theorem hexDigit_inj : ∀ a < 16, ∀ b < 16, hexDigit a = hexDigit b → a = b := by
  decide

theorem byteHexChars_inj (a b : Nat) (ha : a < 256) (hb : b < 256)
    (h : byteHexChars a = byteHexChars b) : a = b := by
  simp only [byteHexChars, List.cons.injEq, and_true] at h
  obtain ⟨h1, h2⟩ := h
  have d1 : a / 16 = b / 16 :=
    hexDigit_inj (a / 16) (by omega) (b / 16) (by omega) h1
  have d2 : a % 16 = b % 16 :=
    hexDigit_inj (a % 16) (by omega) (b % 16) (by omega) h2
  omega

theorem bytesHex_inj : ∀ l1 l2 : List Nat, (∀ b ∈ l1, b < 256) →
    (∀ b ∈ l2, b < 256) → bytesHex l1 = bytesHex l2 → l1 = l2 := by
  intro l1
  induction l1 with
  | nil =>
    intro l2 _ _ h
    cases l2 with
    | nil => rfl
    | cons b t => simp [bytesHex, byteHexChars] at h
  | cons a t1 ih =>
    intro l2 h1 h2 h
    cases l2 with
    | nil => simp [bytesHex, byteHexChars] at h
    | cons b t2 =>
      simp only [bytesHex, byteHexChars, List.cons_append, List.nil_append,
        List.cons.injEq] at h
      obtain ⟨hd1, hd2, ht⟩ := h
      have ha : a < 256 := h1 a (by simp)
      have hb : b < 256 := h2 b (by simp)
      have hab : a = b := byteHexChars_inj a b ha hb (by
        simp only [byteHexChars, List.cons.injEq, and_true]
        exact ⟨hd1, hd2⟩)
      have hts : t1 = t2 := ih t2 (fun x hx => h1 x (by simp [hx]))
        (fun x hx => h2 x (by simp [hx])) ht
      rw [hab, hts]

/-! ## C2 — the drain routine -/

/-- Claim C2: the drain operation performs at most 256 read attempts,
discards what it reads, stops at the first USB error, and never raises to
its caller — including when a read succeeds.  The code violates the last
part: when a read attempt returns data, the debug-log argument
`'Drained ' + len(tmp) + ' bytes from USB endpoint'` concatenates a string
with an integer, raising a `TypeError` that the `except usb.USBError`
clause does not catch (and that the supervisor does not catch either), so
the drain raises on the success path after a single read.  On the
timeout path it does return normally. -/
theorem C2_drain_raises_on_data :
    DrainUSB (fun _ => .ok [0x00]) = ([.read 1024 10], .error .typeError) ∧
    supervisorCatches .typeError = false ∧
    DrainUSB (fun _ => .err (.usbError none)) = ([.read 1024 10], .ok ()) := by
  decide

/-! ## C3 — SendAndReceive -/

/-- Claim C3 counterexample: `sendAndReceive` is claimed to perform a read
requesting at most 16 bytes, with 16 being the reply-read size cap and not
a timeout.  In the code the read is `ep_in.read(ep_in.bEndpointAddress, 16)`
and pyusb's `Endpoint.read(size_or_buffer, timeout)` takes the size first:
for the IN endpoint at address 0x81 the single read performed requests 129
bytes with a 16 ms timeout, and 129 is not at most 16. -/
theorem C3_counterexample :
    (SendAndReceive epInC ping [0x1e, 0x00]).1 =
      [.write ping, .read 129 16] ∧ ¬(129 ≤ 16) := by
  decide

/-- Claim C3 (amended): for every packet, `sendAndReceive` writes the packet
to the OUT endpoint and then performs a read on the IN endpoint whose
requested size is the IN endpoint's address (`bEndpointAddress`, passed as
pyusb's `size_or_buffer` argument) and whose timeout is 16 ms — the 16
figure is a timeout, not a size cap — returning the device's reply
hex-encoded as a string; in the ping loop each exchange contributes exactly
that write followed by that read. -/
theorem C3_send_and_receive_ops (ep_in : Endpoint) (dout data_read : List Nat)
    (args : Args) (r : List Nat) (rest : List Exchange)
    (hres : args.restart = false) :
    (SendAndReceive ep_in dout data_read).1 =
      [.write dout, .read ep_in.bEndpointAddress 16] ∧
    (SendAndReceive ep_in dout data_read).2 = bytesHex data_read ∧
    (sessionLoop args ep_in (.reply r :: rest)).wire =
      .write ping :: .read ep_in.bEndpointAddress 16 ::
        (sessionLoop args ep_in rest).wire := by
  refine ⟨rfl, rfl, ?_⟩
  simp [sessionLoop, hres, SendAndCompare, SendAndReceive]

theorem C3_send_and_receive_ops_witness :
    argsDefault.restart = false ∧
    (sessionLoop argsDefault epInC (.reply ping :: [])).wire =
      .write ping :: .read epInC.bEndpointAddress 16 ::
        (sessionLoop argsDefault epInC []).wire :=
  ⟨rfl, (C3_send_and_receive_ops epInC ping ping argsDefault ping [] rfl).2.2⟩

/-! ## C4 — SendAndCompare -/

/-- Claim C4: `sendAndCompare` returns true if and only if the reply is
byte-for-byte identical to the sent packet; on mismatch it logs a warning
and returns false without raising, and a false result from a ping neither
ends the session loop nor changes the connection state (the ping loop
discards the boolean). -/
theorem C4_send_and_compare (ep_in : Endpoint) (dout data_read : List Nat)
    (hd : ∀ b ∈ dout, b < 256) (hr : ∀ b ∈ data_read, b < 256) :
    ((SendAndCompare ep_in dout data_read).2.2 = true ↔ data_read = dout) ∧
    ((SendAndCompare ep_in dout data_read).2.2 = false →
      (SendAndCompare ep_in dout data_read).2.1 = [.mismatchWarn]) ∧
    (∀ (args : Args) (rest : List Exchange), args.restart = false →
      (sessionLoop args ep_in (.reply data_read :: rest)).outcome =
        (sessionLoop args ep_in rest).outcome) := by
  refine ⟨?_, ?_, ?_⟩
  · simp only [SendAndCompare, SendAndReceive, decide_eq_true_eq]
    constructor
    · intro h
      exact (bytesHex_inj dout data_read hd hr h).symm
    · intro h
      rw [h]
  · intro h
    simp only [SendAndCompare, SendAndReceive, decide_eq_false_iff_not] at h
    simp [SendAndCompare, SendAndReceive, h]
  · intro args rest hres
    simp [sessionLoop, hres]

theorem C4_send_and_compare_witness :
    (∀ b ∈ ping, b < 256) ∧
    ((SendAndCompare epInC ping [0x1e, 0x01]).2.2 = true ↔
      [0x1e, 0x01] = ping) :=
  ⟨by decide,
    (C4_send_and_compare epInC ping [0x1e, 0x01] (by decide) (by decide)).1⟩

/-! ## C5 — connection-state transitions -/

theorem goodTrace_cons (a b : ConnState) (l : List ConnState) :
    goodTrace (a :: b :: l) =
      ((decide (a = b) || allowedStep a b) && goodTrace (b :: l)) := rfl

theorem handleSessionEnd_shape (ops : List WireOp) (st : SessTrace) :
    (∃ o, (handleSessionEnd ops st).halt = some o ∧
      ((handleSessionEnd ops st).states = [] ∨
        (handleSessionEnd ops st).states = [.CONNECTED])) ∨
    ((handleSessionEnd ops st).halt = none ∧
      ((handleSessionEnd ops st).states = [.DISCONNECTED] ∨
        (handleSessionEnd ops st).states = [.CONNECTED, .DISCONNECTED])) := by
  rcases st with ⟨w, sl, lg, o⟩
  cases o with
  | outOfScript => exact .inl ⟨.running, rfl, .inr rfl⟩
  | fault e =>
    by_cases h : supervisorCatches e = true
    · exact .inr (by simp [handleSessionEnd, h])
    · refine .inl ⟨.uncaught e, ?_, .inr ?_⟩ <;>
        simp [handleSessionEnd, h]

theorem superviseIter_shape (args : Args) (s : ConnState)
    (acq : List WireOp × Except PyError (Endpoint × Endpoint))
    (exchs : List Exchange) :
    (∃ o, (superviseIter args s acq exchs).halt = some o ∧
      ((superviseIter args s acq exchs).states = [] ∨
        (superviseIter args s acq exchs).states = [.CONNECTED])) ∨
    ((superviseIter args s acq exchs).halt = none ∧
      ((superviseIter args s acq exchs).states = [.DISCONNECTED] ∨
        (superviseIter args s acq exchs).states =
          [.CONNECTED, .DISCONNECTED])) := by
  rcases acq with ⟨ops, r⟩
  cases r with
  | error e =>
    by_cases h : supervisorCatches e = true
    · exact .inr (by simp [superviseIter, h])
    · refine .inl ⟨.uncaught e, ?_, .inl ?_⟩ <;> simp [superviseIter, h]
  | ok eps =>
    rcases eps with ⟨eo, ei⟩
    exact handleSessionEnd_shape ops (sessionLoop args ei exchs)

theorem superviseAux_goodTrace (args : Args) :
    ∀ (behs : List DeviceBehaviour) (s : ConnState),
      goodTrace (s :: (superviseAux args s behs).states) = true ∧
      ConnState.STARTUP ∉ (superviseAux args s behs).states := by
  intro behs
  induction behs with
  | nil =>
    intro s
    constructor
    · rfl
    · simp [superviseAux]
  | cons b rest ih =>
    intro s
    rcases superviseIter_shape args s (usbinit b) b.exchanges with
      ⟨o, hh, hst⟩ | ⟨hh, hst⟩
    · have : superviseAux args s (b :: rest) =
          ⟨[], (superviseIter args s (usbinit b) b.exchanges).wire,
            (superviseIter args s (usbinit b) b.exchanges).sleeps,
            (superviseIter args s (usbinit b) b.exchanges).logs,
            (superviseIter args s (usbinit b) b.exchanges).states, 1, o⟩ := by
        simp [superviseAux, hh]
      rw [this]
      rcases hst with h | h <;> rw [h] <;> exact ⟨by cases s <;> rfl, by simp⟩
    · have hrw : superviseAux args s (b :: rest) =
          ⟨[], (superviseIter args s (usbinit b) b.exchanges).wire ++
              (superviseAux args .DISCONNECTED rest).wire,
            (superviseIter args s (usbinit b) b.exchanges).sleeps ++
              (superviseAux args .DISCONNECTED rest).sleeps,
            (superviseIter args s (usbinit b) b.exchanges).logs ++
              (superviseAux args .DISCONNECTED rest).logs,
            (superviseIter args s (usbinit b) b.exchanges).states ++
              (superviseAux args .DISCONNECTED rest).states,
            (superviseAux args .DISCONNECTED rest).attempts + 1,
            (superviseAux args .DISCONNECTED rest).outcome⟩ := by
        simp [superviseAux, hh]
      rw [hrw]
      obtain ⟨ihg, ihm⟩ := ih .DISCONNECTED
      rcases hst with h | h <;> rw [h]
      · refine ⟨?_, ?_⟩
        · rw [List.cons_append, List.nil_append, goodTrace_cons]
          refine (Bool.and_eq_true _ _).mpr ⟨by cases s <;> rfl, ihg⟩
        · simp [ihm]
      · refine ⟨?_, ?_⟩
        · rw [List.cons_append, List.cons_append, List.nil_append,
            goodTrace_cons, goodTrace_cons]
          refine (Bool.and_eq_true _ _).mpr ⟨by cases s <;> rfl,
            (Bool.and_eq_true _ _).mpr ⟨rfl, ihg⟩⟩
        · simp [ihm]

/-- Claim C5: across every execution of the supervisor loop, the
`laststatus` variable only ever changes along STARTUP→CONNECTED,
STARTUP→DISCONNECTED, CONNECTED→DISCONNECTED or DISCONNECTED→CONNECTED, and
once it has left STARTUP it is never assigned STARTUP again (no assignment
in the loop ever writes STARTUP). -/
theorem C5_state_transitions (args : Args) (behs : List DeviceBehaviour) :
    goodTrace (ConnState.STARTUP :: (main args behs).states) = true ∧
    ConnState.STARTUP ∉ (main args behs).states := by
  unfold main
  split
  · exact superviseAux_goodTrace args behs .STARTUP
  · exact ⟨rfl, by simp⟩

/-! ## C7 — the waiting message -/

theorem superviseAux_disconnected_logs (args : Args) :
    ∀ m, (superviseAux args .DISCONNECTED
      (List.replicate m notFoundDevice)).logs = [] := by
  intro m
  induction m with
  | zero => rfl
  | succ n ih =>
    have hit : superviseIter args .DISCONNECTED (usbinit notFoundDevice)
        notFoundDevice.exchanges =
        ⟨[], [2], [], [.DISCONNECTED], none⟩ := rfl
    simp [List.replicate_succ, superviseAux, hit, ih]

/-- Claim C7: if the device is never found, the
`Waiting for watchdog module to be connected...` info message is logged
exactly once across all retries — on the first failed attempt — and a run
of failed attempts starting from DISCONNECTED logs nothing at all. -/
theorem C7_waiting_logged_once (args : Args) (n : Nat) (hn : 1 ≤ n) :
    (superviseAux args .STARTUP (List.replicate n notFoundDevice)).logs =
      [LogMsg.waiting] ∧
    (superviseAux args .STARTUP
      (List.replicate n notFoundDevice)).logs.count .waiting = 1 ∧
    (superviseIter args .STARTUP (usbinit notFoundDevice)
      notFoundDevice.exchanges).logs = [LogMsg.waiting] ∧
    ∀ m, (superviseAux args .DISCONNECTED
      (List.replicate m notFoundDevice)).logs = [] := by
  obtain ⟨k, rfl⟩ : ∃ k, n = k + 1 := ⟨n - 1, by omega⟩
  have hit : superviseIter args .STARTUP (usbinit notFoundDevice)
      notFoundDevice.exchanges =
      ⟨[], [2], [LogMsg.waiting], [.DISCONNECTED], none⟩ := rfl
  have hfirst : (superviseAux args .STARTUP
      (List.replicate (k + 1) notFoundDevice)).logs = [LogMsg.waiting] := by
    simp [List.replicate_succ, superviseAux, hit,
      superviseAux_disconnected_logs args k]
  refine ⟨hfirst, ?_, hit ▸ rfl, superviseAux_disconnected_logs args⟩
  rw [hfirst]
  rfl

theorem C7_waiting_logged_once_witness :
    1 ≤ 3 ∧
    (superviseAux argsDefault .STARTUP
      (List.replicate 3 notFoundDevice)).logs = [LogMsg.waiting] :=
  ⟨by decide, (C7_waiting_logged_once argsDefault 3 (by decide)).1⟩

/-! ## C1 — missing endpoint during acquisition -/

/-- Claim C1 counterexample: the claim says a device whose first interface
lacks an OUT endpoint makes acquisition fail with a DriverError that the
supervisor catches and retries rather than terminating the process.  For a
found device whose interface holds only an IN endpoint (address 0x81), the
code's `assert ep_out is not None` raises `AssertionError`, which neither
the supervisor's handlers (`except ValueError` / `except usb.USBError`) nor
the top level catches: the process terminates with a traceback after a
single acquisition attempt, never reaching the second scripted device. -/
theorem C1_counterexample :
    (usbinit { okDevice [] with intf := [epInC] }).2 =
      .error .assertionError ∧
    supervisorCatches .assertionError = false ∧
    (processRun argsDefault
      [{ okDevice [] with intf := [epInC] }, okDevice []]).crashedWith =
      some .assertionError ∧
    (processRun argsDefault
      [{ okDevice [] with intf := [epInC] }, okDevice []]).attempts = 1 ∧
    (processRun argsDefault
      [{ okDevice [] with intf := [epInC] }, okDevice []]).exitStatus =
      some 1 := by
  refine ⟨by decide, rfl, by decide, by decide, by decide⟩

/-- Claim C1 (amended): if the first interface of the acquired device lacks
an OUT endpoint or lacks an IN endpoint, acquisition fails with an
`AssertionError` (from `assert ep_out is not None` / `assert ep_in is not
None`); the supervisor's exception handlers do not catch it, so instead of
being cleaned up and retried the error propagates uncaught and the process
terminates (exit status 1 with a traceback) after exactly one acquisition
attempt. -/
theorem C1_assert_terminates (args : Args) (b : DeviceBehaviour)
    (rest : List DeviceBehaviour)
    (hfound : b.found = true)
    (hmiss :
      find_descriptor b.intf
        (fun e => endpoint_direction e.bEndpointAddress == ENDPOINT_OUT)
          = none ∨
      find_descriptor b.intf
        (fun e => endpoint_direction e.bEndpointAddress == ENDPOINT_IN)
          = none)
    (h1 : 1 ≤ args.interval) (h2 : args.interval ≤ 299) :
    (usbinit b).2 = .error .assertionError ∧
    supervisorCatches .assertionError = false ∧
    (processRun args (b :: rest)).crashedWith = some .assertionError ∧
    (processRun args (b :: rest)).exitStatus = some 1 ∧
    (processRun args (b :: rest)).attempts = 1 := by
  have husb : (usbinit b).2 = .error .assertionError := by
    unfold usbinit
    rw [hfound]
    rcases hmiss with h | h
    · simp [h]
    · rcases ho : find_descriptor b.intf
        (fun e => endpoint_direction e.bEndpointAddress == ENDPOINT_OUT) with
        _ | eo
      · simp [ho]
      · simp [ho, h]
  rcases husbp : usbinit b with ⟨ops, r⟩
  rw [husbp] at husb
  simp only at husb
  subst husb
  have hmain : main args (b :: rest) =
      ⟨[], ops, [], [], [], 1, .uncaught .assertionError⟩ := by
    unfold main
    rw [if_pos ⟨h1, h2⟩]
    simp [superviseAux, superviseIter, husbp, supervisorCatches]
  refine ⟨rfl, rfl, ?_, ?_, ?_⟩ <;>
    simp [processRun, hmain]

theorem C1_assert_terminates_witness :
    ({ okDevice [] with intf := [epInC] } : DeviceBehaviour).found = true ∧
    (processRun argsDefault
      [{ okDevice [] with intf := [epInC] }]).crashedWith =
      some .assertionError :=
  ⟨rfl, (C1_assert_terminates argsDefault _ [] rfl (Or.inl (by decide))
    (by decide) (by decide)).2.2.1⟩

/-! ## C6 — user interrupt handling -/

/-- Claim C6: a `KeyboardInterrupt` is never swallowed below the top level —
the supervisor's handlers do not catch it and `usbcleanup` re-raises it —
and whenever the main loop ends with an uncaught `KeyboardInterrupt` the
top-level handler runs `FatalError`: the fatal diagnostic is printed, the
cleanup routine (dispose of USB resources, then device reset) is executed,
and the process exits with status 1 (not an unhandled-traceback crash). -/
theorem C6_keyboard_interrupt :
    supervisorCatches .keyboardInterrupt = false ∧
    cleanupSwallows .keyboardInterrupt = false ∧
    ∀ (args : Args) (behs : List DeviceBehaviour),
      (main args behs).outcome = .uncaught .keyboardInterrupt →
      (processRun args behs).exitStatus = some 1 ∧
      (processRun args behs).crashedWith = none ∧
      Action.printStderrFatal "FATAL ERROR: User pressed CTRL+C, aborting..."
        ∈ (processRun args behs).actions ∧
      Action.dispose_resources ∈ (processRun args behs).actions ∧
      Action.devReset ∈ (processRun args behs).actions := by
  refine ⟨rfl, rfl, ?_⟩
  intro args behs h
  simp [processRun, h, FatalError, usbcleanup]

theorem C6_keyboard_interrupt_witness :
    (main argsDefault [okDevice [.readFault .keyboardInterrupt]]).outcome =
      .uncaught .keyboardInterrupt ∧
    (processRun argsDefault
      [okDevice [.readFault .keyboardInterrupt]]).exitStatus = some 1 :=
  ⟨by decide, (C6_keyboard_interrupt.2.2 argsDefault
    [okDevice [.readFault .keyboardInterrupt]] (by decide)).1⟩

/-! ## C8 — interval validation -/

/-- Claim C8: for every integer interval n, if 1 ≤ n ≤ 299 (the
implementation's single fixed bound is 299) the program proceeds past
configuration validation into the supervisor loop; otherwise the process
prints the rejection messages and exits with status 1 before performing any
USB activity. -/
theorem C8_interval_validation (args : Args) (behs : List DeviceBehaviour) :
    (1 ≤ args.interval → args.interval ≤ 299 →
      main args behs = superviseAux args .STARTUP behs) ∧
    (¬(1 ≤ args.interval ∧ args.interval ≤ 299) →
      (processRun args behs).exitStatus = some 1 ∧
      (processRun args behs).wire = [] ∧
      (processRun args behs).attempts = 0 ∧
      (processRun args behs).printed =
        ["The interval specified " ++ toString args.interval ++
          " is not between 1 and 299", "exiting..."]) := by
  constructor
  · intro h1 h2
    unfold main
    rw [if_pos ⟨h1, h2⟩]
  · intro h
    have hmain : main args behs =
        ⟨["The interval specified " ++ toString args.interval ++
            " is not between 1 and 299", "exiting..."],
          [], [], [], [], 0, .uncaught (.systemExit 1)⟩ := by
      unfold main
      rw [if_neg h]
    refine ⟨?_, ?_, ?_, ?_⟩ <;> simp [processRun, hmain]

theorem C8_interval_validation_witness :
    main argsDefault [] = superviseAux argsDefault .STARTUP [] ∧
    (processRun { argsDefault with interval := 300 } []).exitStatus =
      some 1 ∧
    (processRun { argsDefault with interval := 0 } []).wire = [] :=
  ⟨(C8_interval_validation argsDefault []).1 (by decide) (by decide),
    ((C8_interval_validation { argsDefault with interval := 300 } []).2
      (by decide)).1,
    ((C8_interval_validation { argsDefault with interval := 0 } []).2
      (by decide)).2.1⟩

/-! ## C9 — restart mode -/

theorem writesOf_drainAux (f : Nat → ReadResult) :
    ∀ fuel i, writesOf (drainAux f fuel i).1 = [] := by
  intro fuel
  induction fuel with
  | zero => intro i; rfl
  | succ n ih =>
    intro i
    unfold drainAux
    cases hf : f i with
    | err e => simp [writesOf]
    | ok data =>
      cases hl : drainLogArg data.length with
      | error e => simp [hl, writesOf]
      | ok v => simpa [hl, writesOf, List.filterMap_cons] using ih (i + 1)

theorem writesOf_usbinit (b : DeviceBehaviour) :
    writesOf (usbinit b).1 = [] := by
  unfold usbinit
  by_cases hf : b.found = false
  · rw [if_pos hf]
    rfl
  · rw [if_neg hf]
    rcases ho : find_descriptor b.intf
      (fun e => endpoint_direction e.bEndpointAddress == ENDPOINT_OUT) with
      _ | eo
    · simp [writesOf]
    · rcases hi : find_descriptor b.intf
        (fun e => endpoint_direction e.bEndpointAddress == ENDPOINT_IN) with
        _ | ei
      · simp [writesOf]
      · rcases hd : (DrainUSB b.drainReads).2 with e | u <;>
          simp [DrainUSB, writesOf_drainAux] at hd ⊢ <;>
          simp [hd, DrainUSB, writesOf_drainAux]

/-- Claim C9: in restart mode, when acquisition succeeds and the
send/receive exchange completes without a transport fault, exactly one
RESTART packet (0xFF 0x55) is written to the wire and the process exits
with status 0, regardless of the reply's content. -/
theorem C9_restart_mode (args : Args) (b : DeviceBehaviour)
    (rest : List DeviceBehaviour) (r : List Nat) (exrest : List Exchange)
    (eo ei : Endpoint)
    (h1 : 1 ≤ args.interval) (h2 : args.interval ≤ 299)
    (hres : args.restart = true)
    (hacq : (usbinit b).2 = .ok (eo, ei))
    (hex : b.exchanges = .reply r :: exrest) :
    writesOf (processRun args (b :: rest)).wire = [restart] ∧
    (processRun args (b :: rest)).exitStatus = some 0 := by
  rcases husbp : usbinit b with ⟨ops, res⟩
  rw [husbp] at hacq
  simp only at hacq
  subst hacq
  have hsess : sessionLoop args ei (.reply r :: exrest) =
      ⟨(SendAndCompare ei restart r).1, [],
        [.restarting] ++ (SendAndCompare ei restart r).2.1,
        .fault (.systemExit 0)⟩ := by
    simp [sessionLoop, hres]
  have hmain : main args (b :: rest) =
      ⟨[], ops ++ (SendAndCompare ei restart r).1, [],
        [.restarting] ++ (SendAndCompare ei restart r).2.1, [.CONNECTED],
        1, .uncaught (.systemExit 0)⟩ := by
    unfold main
    rw [if_pos ⟨h1, h2⟩]
    simp [superviseAux, superviseIter, husbp, hex, hsess,
      handleSessionEnd, supervisorCatches]
  have hops : writesOf ops = [] := by
    have := writesOf_usbinit b
    rw [husbp] at this
    exact this
  have happ : writesOf (ops ++ (SendAndCompare ei restart r).1) =
      writesOf ops ++ writesOf (SendAndCompare ei restart r).1 := by
    simp [writesOf, List.filterMap_append]
  constructor
  · have hw : (processRun args (b :: rest)).wire =
        ops ++ (SendAndCompare ei restart r).1 := by
      simp [processRun, hmain]
    rw [hw, happ, hops]
    simp [SendAndCompare, SendAndReceive, writesOf]
  · simp [processRun, hmain]

theorem C9_restart_mode_witness :
    ({ argsDefault with restart := true } : Args).restart = true ∧
    writesOf (processRun { argsDefault with restart := true }
      [okDevice [.reply [0x00]]]).wire = [restart] ∧
    (processRun { argsDefault with restart := true }
      [okDevice [.reply [0x00]]]).exitStatus = some 0 :=
  ⟨rfl,
    (C9_restart_mode { argsDefault with restart := true }
      (okDevice [.reply [0x00]]) [] [0x00] [] epOutC epInC
      (by decide) (by decide) rfl (by decide) rfl).1,
    (C9_restart_mode { argsDefault with restart := true }
      (okDevice [.reply [0x00]]) [] [0x00] [] epOutC epInC
      (by decide) (by decide) rfl (by decide) rfl).2⟩

/-! ## C10 — quiet/debug flags do not influence the wire or the sleeps -/

theorem sessionLoop_flags : ∀ (exchs : List Exchange) (a1 a2 : Args)
    (ei : Endpoint), a1.restart = a2.restart → a1.interval = a2.interval →
    (sessionLoop a1 ei exchs).wire = (sessionLoop a2 ei exchs).wire ∧
    (sessionLoop a1 ei exchs).sleeps = (sessionLoop a2 ei exchs).sleeps ∧
    (sessionLoop a1 ei exchs).outcome = (sessionLoop a2 ei exchs).outcome := by
  intro exchs
  induction exchs with
  | nil => intro a1 a2 ei hr hi; exact ⟨rfl, rfl, rfl⟩
  | cons ex rest ih =>
    intro a1 a2 ei hr hi
    obtain ⟨hw, hs, ho⟩ := ih a1 a2 ei hr hi
    by_cases h : a2.restart = true
    · cases ex <;> simp [sessionLoop, hr, h]
    · cases ex <;> simp [sessionLoop, hr, h, hi, hw, hs, ho]

theorem handleSessionEnd_flags (ops : List WireOp) (st1 st2 : SessTrace)
    (hw : st1.wire = st2.wire) (hs : st1.sleeps = st2.sleeps)
    (ho : st1.outcome = st2.outcome) :
    (handleSessionEnd ops st1).wire = (handleSessionEnd ops st2).wire ∧
    (handleSessionEnd ops st1).sleeps = (handleSessionEnd ops st2).sleeps ∧
    (handleSessionEnd ops st1).states = (handleSessionEnd ops st2).states ∧
    (handleSessionEnd ops st1).halt = (handleSessionEnd ops st2).halt := by
  rcases st1 with ⟨w1, sl1, lg1, o1⟩
  rcases st2 with ⟨w2, sl2, lg2, o2⟩
  simp only at hw hs ho
  subst hw hs ho
  cases o1 with
  | outOfScript => exact ⟨rfl, rfl, rfl, rfl⟩
  | fault e =>
    by_cases h : supervisorCatches e = true <;>
      simp [handleSessionEnd, h]

theorem superviseIter_flags (a1 a2 : Args) (s : ConnState)
    (acq : List WireOp × Except PyError (Endpoint × Endpoint))
    (exchs : List Exchange)
    (hr : a1.restart = a2.restart) (hi : a1.interval = a2.interval) :
    (superviseIter a1 s acq exchs).wire = (superviseIter a2 s acq exchs).wire ∧
    (superviseIter a1 s acq exchs).sleeps =
      (superviseIter a2 s acq exchs).sleeps ∧
    (superviseIter a1 s acq exchs).states =
      (superviseIter a2 s acq exchs).states ∧
    (superviseIter a1 s acq exchs).halt =
      (superviseIter a2 s acq exchs).halt := by
  rcases acq with ⟨ops, r⟩
  cases r with
  | error e => exact ⟨rfl, rfl, rfl, rfl⟩
  | ok eps =>
    rcases eps with ⟨eo, ei⟩
    obtain ⟨hw, hs, ho⟩ := sessionLoop_flags exchs a1 a2 ei hr hi
    exact handleSessionEnd_flags ops _ _ hw hs ho

theorem superviseAux_flags (a1 a2 : Args)
    (hr : a1.restart = a2.restart) (hi : a1.interval = a2.interval) :
    ∀ (behs : List DeviceBehaviour) (s : ConnState),
      (superviseAux a1 s behs).wire = (superviseAux a2 s behs).wire ∧
      (superviseAux a1 s behs).sleeps = (superviseAux a2 s behs).sleeps ∧
      (superviseAux a1 s behs).states = (superviseAux a2 s behs).states ∧
      (superviseAux a1 s behs).attempts = (superviseAux a2 s behs).attempts ∧
      (superviseAux a1 s behs).outcome = (superviseAux a2 s behs).outcome := by
  intro behs
  induction behs with
  | nil => intro s; exact ⟨rfl, rfl, rfl, rfl, rfl⟩
  | cons b rest ihb =>
    intro s
    obtain ⟨hw, hs, hst, hh⟩ :=
      superviseIter_flags a1 a2 s (usbinit b) b.exchanges hr hi
    obtain ⟨tw, ts, tst, ta, tuo⟩ := ihb .DISCONNECTED
    rcases hhalt : (superviseIter a2 s (usbinit b) b.exchanges).halt with
      _ | o
    · rw [hhalt] at hh
      simp [superviseAux, hh, hhalt, hw, hs, hst, tw, ts, tst, ta, tuo]
    · rw [hhalt] at hh
      simp [superviseAux, hh, hhalt, hw, hs, hst]

/-- Claim C10: for every configuration and device behaviour, the sequence of
USB wire operations (drain reads, packet writes, reply reads) and the
sleeps performed are identical whatever the values of the `--quiet` and
`--debug` flags: those two flags influence only logging, never the wire
protocol, the retries, or the control flow. -/
theorem C10_flags_noninterference (args : Args)
    (behs : List DeviceBehaviour) (q1 d1 q2 d2 : Bool) :
    (main { args with quiet := q1, debug := d1 } behs).wire =
      (main { args with quiet := q2, debug := d2 } behs).wire ∧
    (main { args with quiet := q1, debug := d1 } behs).sleeps =
      (main { args with quiet := q2, debug := d2 } behs).sleeps ∧
    (main { args with quiet := q1, debug := d1 } behs).states =
      (main { args with quiet := q2, debug := d2 } behs).states ∧
    (main { args with quiet := q1, debug := d1 } behs).attempts =
      (main { args with quiet := q2, debug := d2 } behs).attempts := by
  obtain ⟨hw, hs, hst, ha, _⟩ := superviseAux_flags
    { args with quiet := q1, debug := d1 }
    { args with quiet := q2, debug := d2 } rfl rfl behs .STARTUP
  by_cases h : 1 ≤ args.interval ∧ args.interval ≤ 299
  · have e1 : main { args with quiet := q1, debug := d1 } behs =
        superviseAux { args with quiet := q1, debug := d1 } .STARTUP behs := by
      unfold main
      exact if_pos h
    have e2 : main { args with quiet := q2, debug := d2 } behs =
        superviseAux { args with quiet := q2, debug := d2 } .STARTUP behs := by
      unfold main
      exact if_pos h
    rw [e1, e2]
    exact ⟨hw, hs, hst, ha⟩
  · have e1 : main { args with quiet := q1, debug := d1 } behs =
        ⟨["The interval specified " ++ toString args.interval ++
            " is not between 1 and 299", "exiting..."],
          [], [], [], [], 0, .uncaught (.systemExit 1)⟩ := by
      unfold main
      exact if_neg h
    have e2 : main { args with quiet := q2, debug := d2 } behs =
        ⟨["The interval specified " ++ toString args.interval ++
            " is not between 1 and 299", "exiting..."],
          [], [], [], [], 0, .uncaught (.systemExit 1)⟩ := by
      unfold main
      exact if_neg h
    rw [e1, e2]
    exact ⟨rfl, rfl, rfl, rfl⟩

end UsbWatchdog
